import Mathlib

/-!
Verification of the doltpy command-line wrapper (`doltpy/core/dolt.py`).

The Python module wraps the external `dolt` binary: every operation builds an
argument list, hands it to a subprocess, and (for some operations) parses the
line-oriented text output into typed objects.  This file gives a shallow
embedding of that code:

* the subprocess is an oracle `run : List String → String → ProcResult`
  mapping an argument vector and a working directory to the process result;
* Python exceptions (`DoltException`, `AssertionError`, `IndexError`,
  `AttributeError`) become an explicit `PyError` value in `Except`;
* each wrapper method is a pure Lean function from its (Python) arguments to
  either an error or the command line(s) it hands to the subprocess, plus,
  for the parsing methods, a parser from output lines to typed objects;
* the mutable server handle of the `Dolt` object is passed explicitly as a
  `DoltState`, and side effects (spawning, killing, retry loops) are recorded
  as an explicit `Action` trace.

Python string/list idioms are translated by the `py*` helpers below, keeping
Python's truthiness rules, its `str.split` semantics and its exceptions.
-/

/-- Python `s.lstrip()`: drop leading whitespace. -/
def pyLstrip (s : String) : String := String.mk (s.data.dropWhile Char.isWhitespace)

/-- Python `s.strip()`: drop leading and trailing whitespace. -/
def pyStrip (s : String) : String :=
  String.mk ((s.data.dropWhile Char.isWhitespace).reverse.dropWhile Char.isWhitespace).reverse

/-- Python `s.startswith(pre)`. -/
def pyStartswith (s pre : String) : Bool := pre.data.isPrefixOf s.data

/-- Split a character list at every character satisfying `p`, keeping empty
pieces (structural-recursion core of the Python `str.split` translations). -/
def splitPred (p : Char → Bool) : List Char → List (List Char)
  | [] => [[]]
  | x :: xs =>
    let r := splitPred p xs
    if p x then [] :: r
    else
      match r with
      | [] => [[x]]
      | y :: ys => (x :: y) :: ys

/-- Python `s.split(sep)` for a one-character separator: keeps empty pieces,
`''.split(sep) == ['']`. -/
def pySplitOnChar (s : String) (sep : Char) : List String :=
  (splitPred (· = sep) s.data).map String.mk

/-- Python `s.split()` (no separator): split on whitespace runs, dropping empties. -/
def pySplitWs (s : String) : List String :=
  ((splitPred Char.isWhitespace s.data).map String.mk).filter (· ≠ "")

/-- Split at the first occurrence of `c`, if any. -/
def breakAtChar (c : Char) : List Char → Option (List Char × List Char)
  | [] => none
  | x :: xs =>
    if x = c then some ([], xs)
    else (breakAtChar c xs).map fun p => (x :: p.1, p.2)

/-- Python `s.split(sep, maxsplit=1)` for a one-character separator. -/
def pySplit1 (s : String) (sep : Char) : List String :=
  match breakAtChar sep s.data with
  | none => [s]
  | some (a, b) => [String.mk a, String.mk b]

/-- Python `'\n'.join(lines)`. -/
def joinNL (lines : List String) : String :=
  String.mk (((lines.map String.data).intersperse ['\n']).flatten)

/-- Python `needle in hay` on strings: substring containment. -/
def strContains (hay needle : String) : Bool :=
  (List.range (hay.data.length + 1)).any fun i => needle.data.isPrefixOf (hay.data.drop i)

/-- Exceptions raised by the wrapper code. -/
inductive PyError where
  /-- The `DoltException(_args, out, err, exitcode)` from `_execute`. -/
  | doltException (execArgs : List String) (stdout stderr : String) (exitcode : Int)
  /-- A failed `assert cond, msg` statement. -/
  | assertionError (msg : String)
  /-- Python `IndexError` from indexing past the end of a list. -/
  | indexError
  /-- Python `AttributeError`, e.g. calling the nonexistent `str.splity`. -/
  | attributeError (msg : String)
deriving DecidableEq, Repr

/-- Python `lst[i]`: the element, or an `IndexError`. -/
def pyGet (l : List String) (i : Nat) : Except PyError String :=
  match l.get? i with
  | some x => .ok x
  | none => .error .indexError

/-- Python dict assignment `m[k] = v` on an insertion-ordered dict:
an existing key keeps its position and gets the new value, a new key is
appended at the end. -/
def updateAssoc {α : Type} (m : List (String × α)) (k : String) (v : α) :
    List (String × α) :=
  if m.any (fun p => p.1 = k) then m.map (fun p => if p.1 = k then (k, v) else p)
  else m ++ [(k, v)]

/-- Python `list.extend(s)` where `s` is a string: appends each character of
`s` as a separate element (a latent bug in the source, modelled faithfully). -/
def extendStr (s : String) : List String := s.data.map fun c => String.mk [c]

/-- Python truthiness of an optional string argument (`None` and `''` are falsy). -/
def truthyS : Option String → Bool
  | none => false
  | some s => s ≠ ""

/-- Python truthiness of an optional list (`None` and `[]` are falsy). -/
def truthyL : Option (List String) → Bool
  | none => false
  | some l => !l.isEmpty

/-- Python truthiness of an optional int (`None` and `0` are falsy). -/
def truthyI : Option Int → Bool
  | none => false
  | some n => n ≠ 0

/-- The `(·.getD "")`, for reading an optional argument already known to be set. -/
def optS (o : Option String) : String := o.getD ""

/-- The `Union[str, List[str]]` type of the `table_or_tables` parameters. -/
inductive StrOrList where
  | str (s : String)
  | list (l : List String)
deriving DecidableEq, Repr

/-- The common prologue `to_x = [t] if type(t) == str else t`. -/
def tablesOf : StrOrList → List String
  | .str s => [s]
  | .list l => l

/-- Result of one subprocess invocation (decoded stdout/stderr and exit code). -/
structure ProcResult where
  stdout : String
  stderr : String
  exitcode : Int
deriving DecidableEq, Repr

/-- The `dolt.py`'s `DoltStatus`: clean flag plus the two table-name → staged maps. -/
structure DoltStatus where
  is_clean : Bool
  modified_tables : List (String × Bool)
  added_tables : List (String × Bool)
deriving DecidableEq, Repr

/-- The `dolt.py`'s `DoltTable` (the integer `rows` field receives the raw text
column in the source, so it is a string here as well). -/
structure DoltTable where
  name : String
  table_hash : Option String
  rows : Option String
  system : Bool
deriving DecidableEq, Repr

/-- The `dolt.py`'s `DoltCommit`.  The source stores a `datetime` parsed by
`strptime`; the embedding keeps the exact text handed to `strptime`. -/
structure DoltCommit where
  hash : String
  ts : String
  author : String
deriving DecidableEq, Repr

/-- The `dolt.py`'s `DoltKeyPair`. -/
structure DoltKeyPair where
  public_key : String
  key_id : String
  active : Bool
deriving DecidableEq, Repr

/-- The `dolt.py`'s `DoltBranch`. -/
structure DoltBranch where
  name : String
  commit_id : String
deriving DecidableEq, Repr

/-- The `dolt.py`'s `DoltRemote`. -/
structure DoltRemote where
  name : String
  url : String
deriving DecidableEq, Repr

/-- The mutable state of a `Dolt` object: the `self.server` process handle
(`None` or a spawned process, abstracted to its pid). -/
structure DoltState where
  server : Option Nat
deriving DecidableEq, Repr

/-- Observable side effects of the wrapper, in program order. -/
inductive PyAction where
  /-- The `Popen(args=<argv>, cwd=cwd, ...)` inside `_execute`. -/
  | runDolt (argv : List String) (cwd : String)
  /-- The `self.server.kill()` inside `sql_server_stop`. -/
  | killServer (handle : Nat)
  /-- The `Popen(['dolt'] + server_args, ...)` inside `sql_server`. -/
  | startServer (args : List String)
  /-- The `@retry(exceptions=Exception, delay=2, tries=10)`-wrapped
  `verify_connection` call: open an engine connection, retrying up to
  `tries` times with `delaySeconds` between attempts. -/
  | verifyConnectionRetry (tries delaySeconds : Nat)
deriving DecidableEq, Repr

instance {ε α : Type} [DecidableEq ε] [DecidableEq α] : DecidableEq (Except ε α) :=
  fun x y =>
    match x, y with
    | .ok a, .ok b =>
      if h : a = b then isTrue (by rw [h]) else isFalse (by simp [h])
    | .error a, .error b =>
      if h : a = b then isTrue (by rw [h]) else isFalse (by simp [h])
    | .ok _, .error _ => isFalse (by simp)
    | .error _, .ok _ => isFalse (by simp)

/-- The `_execute(args, cwd)`: prepend `'dolt'`, run the subprocess, return the
decoded stdout on exit code 0, raise `DoltException(_args, out, err, exitcode)`
otherwise. -/
def dolt_execute (run : List String → String → ProcResult)
    (args : List String) (cwd : String) : Except PyError String :=
  let argv := "dolt" :: args
  let r := run argv cwd
  if r.exitcode = 0 then .ok r.stdout
  else .error (.doltException argv r.stdout r.stderr r.exitcode)

/-- The server arguments built by `sql_server()` when called with all-default
parameters (only `loglevel='info'` survives the truthiness checks), as done by
the restart path of `execute`. -/
def serverDefaultArgs : List String := ["sql-server", "--loglevel", "info"]

namespace Dolt

/-- The `Dolt.sql_server_stop`: warn and return if no server handle is present,
otherwise kill the process and clear the handle. -/
def sql_server_stop (st : DoltState) : DoltState × List PyAction :=
  match st.server with
  | none => (st, [])
  | some h => (⟨none⟩, [.killServer h])

/-- The `Dolt.execute(args, print_output, restart_server)`: optionally stop a
running server, run the command via `_execute`, then (only if a server had
been stopped) relaunch the server with default parameters and run the
retry-wrapped `verify_connection`; returns the output split on newlines.
Logging of the output is omitted; the connection check's own outcome is
abstracted into the `verifyConnectionRetry` action. -/
def execute (run : List String → String → ProcResult) (newPid : Nat)
    (st : DoltState) (args : List String) (cwd : String) (restart_server : Bool) :
    Except PyError (List String) × DoltState × List PyAction :=
  let wasServing := restart_server && st.server.isSome
  let (st1, tr1) := if wasServing then sql_server_stop st else (st, [])
  let r := run ("dolt" :: args) cwd
  let tr2 := tr1 ++ [.runDolt ("dolt" :: args) cwd]
  if r.exitcode = 0 then
    if wasServing then
      (.ok (pySplitOnChar r.stdout '\n'), ⟨some newPid⟩,
        tr2 ++ [.startServer serverDefaultArgs, .verifyConnectionRetry 10 2])
    else (.ok (pySplitOnChar r.stdout '\n'), st1, tr2)
  else (.error (.doltException ("dolt" :: args) r.stdout r.stderr r.exitcode), st1, tr2)

/-- The line-scanning loop of `Dolt.status`, threading the `staged` flag and
the two dicts exactly as the source does.  A `modified`/`new table` line with
no `':'` raises `IndexError` (`_line.split(':')[1]`). -/
def statusLoop : List String → Bool → List (String × Bool) → List (String × Bool) →
    Except PyError (List (String × Bool) × List (String × Bool))
  | [], _, changes, newTables => .ok (changes, newTables)
  | line :: rest, staged, changes, newTables =>
    let l := pyLstrip line
    if pyStartswith l "Changes to be committed" then statusLoop rest true changes newTables
    else if pyStartswith l "Changes not staged for commit" then
      statusLoop rest false changes newTables
    else if pyStartswith l "Untracked files" then statusLoop rest false changes newTables
    else if pyStartswith l "modified" then
      match pyGet (pySplitOnChar l ':') 1 with
      | .error e => .error e
      | .ok f => statusLoop rest staged (updateAssoc changes (pyLstrip f) staged) newTables
    else if pyStartswith l "new table" then
      match pyGet (pySplitOnChar l ':') 1 with
      | .error e => .error e
      | .ok f => statusLoop rest staged changes (updateAssoc newTables (pyLstrip f) staged)
    else statusLoop rest staged changes newTables

/-- The `Dolt.status`, applied to the output lines of `dolt status`: if the joined
output contains the substring `'clean'` the repo is reported clean with empty
maps; otherwise the lines are scanned by `statusLoop` starting unstaged. -/
def parse_status (output : List String) : Except PyError DoltStatus :=
  if strContains (joinNL output) "clean" then .ok ⟨true, [], []⟩
  else (statusLoop output false [] []).map fun p => ⟨false, p.1, p.2⟩

/-- The line loop of `Dolt.log`: tracks `current_commit`, `author`, `date`;
a non-header line while a commit is pending stores a `DoltCommit` keyed by its
hash (the in-loop `assert` fires if author or date is still `None`).  After
storing, only `current_commit` is cleared. -/
def logLoop : List String → Option String → Option String → Option String →
    List (String × DoltCommit) → Except PyError (List (String × DoltCommit))
  | [], _, _, _, acc => .ok acc
  | line :: rest, cc, author, date, acc =>
    if pyStartswith line "commit" then
      match pyGet (pySplitOnChar line ' ') 1 with
      | .error e => .error e
      | .ok c => logLoop rest (some c) author date acc
    else if pyStartswith line "Author" then
      match pyGet (pySplitOnChar line ':') 1 |>.map pyLstrip with
      | .error e => .error e
      | .ok a => logLoop rest cc (some a) date acc
    else if pyStartswith line "Date" then
      match pyGet (pySplit1 line ':') 1 |>.map pyLstrip with
      | .error e => .error e
      | .ok d => logLoop rest cc author (some d) acc
    else
      match cc with
      | some c =>
        match author, date with
        | some a, some d =>
          logLoop rest none (some a) (some d) (updateAssoc acc c ⟨c, d, a⟩)
        | _, _ =>
          .error (.assertionError
            "current_commit is not None and date is not None and author is not None")
      | none => logLoop rest cc author date acc

/-- The `Dolt.log`: parse `dolt log` output lines into an insertion-ordered map
from commit hash to `DoltCommit` (the `datetime.strptime` call is abstracted
to the exact text it receives). -/
def parse_log (output : List String) : Except PyError (List (String × DoltCommit)) :=
  logLoop output none none none []

/-- The line loop of `Dolt._get_branches`: stops at the first empty line; a
line starting with `'*'` becomes the active branch (the last such line wins)
and is also appended to the list; every other line is appended only. -/
def branchLoop : List String → Except PyError (Option DoltBranch × List DoltBranch)
  | [] => .ok (none, [])
  | line :: rest =>
    if line = "" then .ok (none, [])
    else if pyStartswith line "*" then
      let split := pySplitWs ((pyLstrip line).drop 1)
      match pyGet split 0, pyGet split 1 with
      | .ok b, .ok c =>
        match branchLoop rest with
        | .error e => .error e
        | .ok (act, bs) => .ok (act.orElse fun _ => some ⟨b, c⟩, ⟨b, c⟩ :: bs)
      | .error e, _ => .error e
      | _, .error e => .error e
    else
      let split := pySplitWs (pyLstrip line)
      match pyGet split 0, pyGet split 1 with
      | .ok b, .ok c =>
        match branchLoop rest with
        | .error e => .error e
        | .ok (act, bs) => .ok (act, ⟨b, c⟩ :: bs)
      | .error e, _ => .error e
      | _, .error e => .error e

/-- The `Dolt._get_branches`: parse `dolt branch --list --verbose` output into the
active branch and the list of all branches. -/
def parse_branches (output : List String) :
    Except PyError (Option DoltBranch × List DoltBranch) :=
  branchLoop output

/-- The line loop of `Dolt.remote` when neither `add` nor `remove` is set:
stops at the first empty line, splitting each line into name and URL. -/
def remoteLoop : List String → Except PyError (List DoltRemote)
  | [] => .ok []
  | line :: rest =>
    if line = "" then .ok []
    else
      let split := pySplitWs (pyLstrip line)
      match pyGet split 0, pyGet split 1 with
      | .ok n, .ok u =>
        match remoteLoop rest with
        | .error e => .error e
        | .ok rs => .ok (⟨n, u⟩ :: rs)
      | .error e, _ => .error e
      | _, .error e => .error e

/-- The `Dolt.remote` (listing mode): parse `dolt remote --verbose` output. -/
def parse_remotes (output : List String) : Except PyError (List DoltRemote) :=
  remoteLoop output

/-- The first loop of `Dolt.ls`: skips `Tables`-headers and empty lines,
stops recording the index when a `System`-header appears, otherwise splits a
row into name, hash and row count. -/
def lsMain : List String → Nat → Except PyError (List DoltTable × Option Nat)
  | [], _ => .ok ([], none)
  | line :: rest, i =>
    if pyStartswith line "Tables" || line = "" then lsMain rest (i + 1)
    else if pyStartswith line "System" then .ok ([], some i)
    else
      let split := pySplitWs (pyLstrip line)
      match pyGet split 0, pyGet split 1, pyGet split 2 with
      | .ok a, .ok b, .ok c =>
        match lsMain rest (i + 1) with
        | .error e => .error e
        | .ok (ts, pos) => .ok (⟨a, some b, some c, false⟩ :: ts, pos)
      | .error e, _, _ => .error e
      | _, .error e, _ => .error e
      | _, _, .error e => .error e

/-- The `Dolt.ls`: parse `dolt ls --verbose` output.  The system-table section is
appended only when `system_pos` is truthy (so a `System` header on line 0 is
ignored, as in the source), and every non-`System` line of that section —
including empty ones — becomes a stripped system table name. -/
def parse_ls (output : List String) : Except PyError (List DoltTable) :=
  match lsMain output 0 with
  | .error e => .error e
  | .ok (tables, system_pos) =>
    match system_pos with
    | some p =>
      if p ≠ 0 then
        .ok (tables ++ (output.drop p).filterMap fun line =>
          if pyStartswith line "System" then none else some ⟨pyStrip line, none, none, true⟩)
      else .ok tables
    | none => .ok tables

/-- The `Dolt.creds_ls`'s parsing loop.  The source iterates over the *string*
returned by `_execute` (not over lines), so each `line` is a single character:
a `'*'` character reaches `split[1]` of `''.split(' ') == ['']` and raises
`IndexError`; any other character calls the nonexistent method `str.splity`
and raises `AttributeError`.  Only empty output yields a (empty) result. -/
def credsGo : List Char → List DoltKeyPair → Except PyError (List DoltKeyPair)
  | [], acc => .ok acc.reverse
  | c :: _, _ =>
    if c = '*' then .error .indexError
    else .error (.attributeError "str object has no attribute splity")

/-- The `Dolt.creds_ls`: parse the raw output string of `dolt creds ls --verbose`. -/
def creds_ls_parse (output : String) : Except PyError (List DoltKeyPair) :=
  credsGo output.data []

/-- The `Dolt.add`'s command line: `['add'] + to_add`. -/
def add_cmd (table_or_tables : StrOrList) : List String :=
  "add" :: tablesOf table_or_tables

/-- The `Dolt.reset`'s command line: the `assert not(hard and soft)` fires before
`execute` is called; otherwise the flags and tables are appended. -/
def reset_cmd (table_or_tables : StrOrList) (hard soft : Bool) :
    Except PyError (List String) :=
  let to_reset := tablesOf table_or_tables
  if hard && soft then .error (.assertionError "Cannot reset hard and soft")
  else
    let args := ["reset"]
    let args := if hard then args ++ ["--hard"] else args
    let args := if soft then args ++ ["--soft"] else args
    .ok (args ++ to_reset)

/-- The `Dolt.commit`'s command line.  The source's `message` default of `None`
and the `str(date)` formatting are outside the claims; `date` holds the
already-formatted date text when present. -/
def commit_cmd (message : String) (allow_empty : Bool) (date : Option String) :
    List String :=
  ["commit", "-m", message]
    ++ (if allow_empty then ["--allow-empty"] else [])
    ++ (match date with | some d => ["--date", d] | none => [])

/-- The `Dolt.table_rm`'s command line: `['rm', ' '.join(tables)]`. -/
def table_rm_cmd (table_or_tables : StrOrList) : List String :=
  ["rm", String.intercalate " " (tablesOf table_or_tables)]

/-- The `Dolt.schema_show`'s command line. -/
def schema_show_cmd (table_or_tables : StrOrList) (commit : Option String) :
    List String :=
  ["schema", "show"] ++ (if truthyS commit then [optS commit] else [])
    ++ tablesOf table_or_tables

/-- The `Dolt.diff`'s command line.  Faithful quirks: the assertion message is the
copy-pasted `branch` one; `--schema` is added via `args.extend('--schema')`,
i.e. character by character; `--limit` receives the integer (rendered here as
its decimal string); the tables are joined into a single argument. -/
def diff_cmd (commit other_commit : Option String) (table_or_tables : Option StrOrList)
    (data schema summary sql : Bool) (whereClause : Option String)
    (limit : Option Int) : Except PyError (List String) :=
  if 1 < ([data, schema, summary].filter id).length then
    .error (.assertionError "At most one of delete, copy, move can be set to True")
  else
    let tables : Option (List String) := (table_or_tables.map tablesOf)
    let args := ["diff"]
    let args := if data then
        (let args := if truthyS whereClause then args ++ ["--where", optS whereClause] else args
         if truthyI limit then args ++ ["--limit", toString (limit.getD 0)] else args)
      else args
    let args := if summary then args ++ ["--summary"] else args
    let args := if schema then args ++ extendStr "--schema" else args
    let args := if sql then args ++ ["--sql"] else args
    let args := if truthyS commit then args ++ [optS commit] else args
    let args := if truthyS other_commit then args ++ [optS other_commit] else args
    let args := if truthyL tables then
        args ++ [String.intercalate " " (tables.getD [])] else args
    .ok args

/-- The `Dolt.diff` end to end: builds the command, runs it through `execute`, and
returns `None` — the output is only printed, never parsed into a diff object
(the method's docstring defers that to the future). -/
def diff_run (run : List String → String → ProcResult) (cwd : String)
    (commit other_commit : Option String) (table_or_tables : Option StrOrList)
    (data schema summary sql : Bool) (whereClause : Option String)
    (limit : Option Int) : Except PyError Unit :=
  match diff_cmd commit other_commit table_or_tables data schema summary sql
      whereClause limit with
  | .error e => .error e
  | .ok args =>
    match (execute run 0 ⟨none⟩ args cwd false).1 with
    | .error e => .error e
    | .ok _ => .ok ()

/-- Derived truthiness of the `tables` local in `Dolt.checkout`/`Dolt.diff`:
a string always yields the nonempty list `[s]` (even for `s = ''`), while a
list is truthy iff nonempty. -/
def derivedTablesTruthy : Option StrOrList → Bool
  | none => false
  | some (.str _) => true
  | some (.list l) => !l.isEmpty

/-- Python truthiness of the raw `table_or_tables` argument. -/
def totTruthy : Option StrOrList → Bool
  | none => false
  | some (.str s) => s ≠ ""
  | some (.list l) => !l.isEmpty

/-- The `Dolt.checkout`'s command line: the `branch` block asserts that the raw
`table_or_tables` argument is falsy, the `tables` block asserts that `branch`
is falsy; both blocks run in sequence on the shared `args` list. -/
def checkout_cmd (branch : Option String) (table_or_tables : Option StrOrList)
    (checkout_branch : Bool) (start_point : Option String) :
    Except PyError (List String) :=
  let tables : Option (List String) := table_or_tables.map tablesOf
  let step1 : Except PyError (List String) :=
    if truthyS branch then
      if totTruthy table_or_tables then .error (.assertionError "No table_or_tables ")
      else
        let args := ["checkout"]
          ++ (if checkout_branch then
                "-b" :: (if truthyS start_point then [optS start_point] else [])
              else [])
        .ok (args ++ [optS branch])
    else .ok ["checkout"]
  match step1 with
  | .error e => .error e
  | .ok args1 =>
    if truthyL tables then
      if truthyS branch then
        .error (.assertionError "Passing a branch not compatible with tables")
      else .ok (args1 ++ [String.intercalate " " (tables.getD [])])
    else .ok args1

/-- The `Dolt.checkout` end to end: build the command, then run it through
`execute(args, restart_server=True)`. -/
def checkout_run (run : List String → String → ProcResult) (newPid : Nat)
    (st : DoltState) (cwd : String) (branch : Option String)
    (table_or_tables : Option StrOrList) (checkout_branch : Bool)
    (start_point : Option String) :
    Except PyError (List String) × DoltState × List PyAction :=
  match checkout_cmd branch table_or_tables checkout_branch start_point with
  | .error e => (.error e, st, [])
  | .ok args => execute run newPid st args cwd true

/-- The `Dolt.config`'s command line: the mutually-exclusive-switch assertion and
the per-mode assertions all fire before `execute` (the source's later
`.split('\n')` on the returned list, which always raises `AttributeError`
after a successful run, is past the subprocess call and not modelled). -/
def config_cmd (name value : Option String) (add list get unset : Bool) :
    Except PyError (List String) :=
  if ([add, list, get, unset].filter id).length ≠ 1 then
    .error (.assertionError "Exactly one of add, list, get, unset must be True")
  else
    let args := ["config"]
    let step1 : Except PyError (List String) :=
      if add then
        if truthyS name && truthyS value then
          .ok (args ++ ["--add", "--name", optS name, "--value", optS value])
        else .error (.assertionError "For add, name and value must be set")
      else .ok args
    match step1 with
    | .error e => .error e
    | .ok a1 =>
      let step2 : Except PyError (List String) :=
        if list then
          if truthyS name || truthyS value then
            .error (.assertionError "For list, no name and value provided")
          else .ok (a1 ++ ["--list"])
        else .ok a1
      match step2 with
      | .error e => .error e
      | .ok a2 =>
        let step3 : Except PyError (List String) :=
          if get then
            if truthyS name && !truthyS value then
              .ok (a2 ++ ["--get", "--name", optS name])
            else .error (.assertionError "For get, only name is provided")
          else .ok a2
        match step3 with
        | .error e => .error e
        | .ok a3 =>
          if unset then
            if truthyS name && !truthyS value then
              .ok (a3 ++ ["--unset", "--name", optS name])
            else .error (.assertionError "For get, only name is provided")
          else .ok a3

end Dolt

/-- One subprocess call made by `Dolt.branch`, tagged with the source code
block that issues it (`creation` is the early-return `_execute` path, `final`
the dead trailing `if branch_name:` block, `listing` the `_get_branches`
call). -/
inductive BranchCmd where
  | creation (args : List String)
  | copyCmd (args : List String)
  | deleteCmd (args : List String)
  | moveCmd (args : List String)
  | finalCmd (args : List String)
  | listing
deriving DecidableEq, Repr

/-- The argument vector a `BranchCmd` hands to the subprocess. -/
def BranchCmd.argv : BranchCmd → List String
  | .creation a => a
  | .copyCmd a => a
  | .deleteCmd a => a
  | .moveCmd a => a
  | .finalCmd a => a
  | .listing => ["branch", "--list", "--verbose"]

namespace Dolt

/-- The trailing block of `Dolt.branch`: `if branch_name: args.extend(branch_name);
if start_point: args.append(start_point); self.execute(args)`, then
`return self._get_branches()`.  (`extend` of a string appends its characters.) -/
def branchFinal (branch_name start_point : Option String) (args : List String)
    (steps : List BranchCmd) : Except PyError (List BranchCmd) :=
  let steps :=
    if truthyS branch_name then
      steps ++ [.finalCmd (args ++ extendStr (optS branch_name)
        ++ (if truthyS start_point then [optS start_point] else []))]
    else steps
  .ok (steps ++ [.listing])

/-- The `Dolt.branch`, as the sequence of subprocess calls it makes (or the
exception it raises).  Faithful to the source: the creation test is
`branch_name and not(delete and copy and move)`, so any truthy `branch_name`
outside the triple-flag case takes the early-return creation path;
`args` accumulates across the copy/delete/move blocks; `args.extend(new_branch)`
appends the characters of `new_branch`. -/
def branch_steps (branch_name start_point new_branch : Option String)
    (force delete copy move : Bool) : Except PyError (List BranchCmd) :=
  if 1 < ([delete, copy, move].filter id).length then
    .error (.assertionError "At most one of delete, copy, move can be set to True")
  else if !(truthyS branch_name || delete || copy || move) then
    if force then
      .error (.assertionError
        "force is not valid without providing a new branch name, or copy, move, or delete being true")
    else .ok [.listing]
  else
    let args0 := ["branch"] ++ (if force then ["--force"] else [])
    if truthyS branch_name && !(delete && copy && move) then
      .ok [.creation (args0 ++ [optS branch_name]
        ++ (if truthyS start_point then [optS start_point] else [])), .listing]
    else
      let c1 : Except PyError (List String × List BranchCmd) :=
        if copy then
          if truthyS new_branch then
            let a := args0 ++ ["--copy"]
              ++ (if truthyS branch_name then [optS branch_name] else [])
              ++ extendStr (optS new_branch)
            .ok (a, [.copyCmd a])
          else .error (.assertionError "must provide new_branch when copying a branch")
        else .ok (args0, [])
      match c1 with
      | .error e => .error e
      | .ok (a1, s1) =>
        let c2 : Except PyError (List String × List BranchCmd) :=
          if delete then
            if truthyS branch_name then
              let a := a1 ++ ["--delete", optS branch_name]
              .ok (a, s1 ++ [.deleteCmd a])
            else .error (.assertionError "must provide branch_name when deleting")
          else .ok (a1, s1)
        match c2 with
        | .error e => .error e
        | .ok (a2, s2) =>
          if move then
            if truthyS new_branch then
              let a := a2 ++ ["--move"]
                ++ (if truthyS branch_name then [optS branch_name] else [])
                ++ extendStr (optS new_branch)
              branchFinal branch_name start_point a (s2 ++ [.moveCmd a])
            else .error (.assertionError "must provide new_branch when moving a branch")
          else branchFinal branch_name start_point a2 s2

/-- The plain command-line view of `branch_steps`. -/
def branch_cmds (branch_name start_point new_branch : Option String)
    (force delete copy move : Bool) : Except PyError (List (List String)) :=
  (branch_steps branch_name start_point new_branch force delete copy move).map
    (List.map BranchCmd.argv)

end Dolt

/-- Modelled from the spec: the repository state the external `dolt` binary
maintains — the current branch tip, the number of commits, the tip commit's
root, and the working-set/staged roots (root values abstracted to `Nat`).
This engine is not part of the wrapped repository's Python code (the binary
is out of scope of `src/`), so it is built from the spec's Working Set &
Staging section. -/
structure RepoState where
  tipCommit : Nat
  commitCount : Nat
  tipRoot : Nat
  staged : Nat
  working : Nat
deriving DecidableEq, Repr

/-- Modelled from the spec: the `dolt commit` behavior of the external binary.
`commit(message)` "fails with NothingStaged if `staged == tip`" unless the
allow-empty override is given — surfaced to the wrapper as a nonzero exit —
"otherwise creates a new Commit whose Root is `staged`, moves the current
branch ref to it, and reinitializes `working`/`staged` to the new tip". -/
def doltBinaryCommit (st : RepoState) (allowEmpty : Bool) : ProcResult × RepoState :=
  if st.staged = st.tipRoot ∧ ¬allowEmpty then
    ({ stdout := "", stderr := "no changes added to commit", exitcode := 1 }, st)
  else
    ({ stdout := "commit created", stderr := "", exitcode := 0 },
     { tipCommit := st.commitCount, commitCount := st.commitCount + 1,
       tipRoot := st.staged, staged := st.staged, working := st.staged })

/-- The flag arguments of a command line as the binary's parser sees them:
`-m` consumes the following token as the message, everything else is kept. -/
def flagsOf : List String → List String
  | [] => []
  | "-m" :: _ :: rest => flagsOf rest
  | a :: rest => a :: flagsOf rest

/-- The `Dolt.commit` composed with the modelled binary: build the command line,
let the binary act on the repository (reading the `--allow-empty` flag from
the command line), and surface a nonzero exit as `DoltException` exactly as
`_execute` does. -/
def commitRun (st : RepoState) (message : String) (allow_empty : Bool) :
    Except PyError (List String) × RepoState :=
  let args := Dolt.commit_cmd message allow_empty none
  let (r, st') := doltBinaryCommit st ("--allow-empty" ∈ flagsOf args)
  if r.exitcode = 0 then (.ok (pySplitOnChar r.stdout '\n'), st')
  else (.error (.doltException ("dolt" :: args) r.stdout r.stderr r.exitcode), st')

/-- The claim's section-state rule for one line: a header starting with
`Changes to be committed` makes following entries staged; one starting with
`Changes not staged for commit` or `Untracked files` makes them unstaged;
any other line leaves the state alone. -/
def headerUpdate (st : Bool) (line : String) : Bool :=
  let l := pyLstrip line
  if pyStartswith l "Changes to be committed" then true
  else if pyStartswith l "Changes not staged for commit" then false
  else if pyStartswith l "Untracked files" then false
  else st

/-- Whether a left-stripped line is one of the three section headers. -/
def isStatusHeader (l : String) : Bool :=
  pyStartswith l "Changes to be committed"
    || pyStartswith l "Changes not staged for commit"
    || pyStartswith l "Untracked files"

/-- The (amended) claim's key for a `modified`/`new table` line: the second
`':'`-separated field of the left-stripped line, left-stripped. -/
def claimKeyAmended (l : String) : String :=
  match pyGet (pySplitOnChar l ':') 1 with
  | .ok f => pyLstrip f
  | .error _ => ""

/-- The claim's key as literally stated: the text after the *first* `':'`
of the left-stripped line (left-stripped). -/
def claimKeyAsStated (l : String) : String :=
  match breakAtChar ':' l.data with
  | none => ""
  | some p => pyLstrip (String.mk p.2)

/-- The claim's description of the status scan, restated over the output
lines: the staged state of an entry is derived by `headerUpdate` from the
section headers seen so far, `modified` lines feed the first map and
`new table` lines the second, and all other lines are ignored. -/
def specStatusGo : Bool → List String → List (String × Bool) → List (String × Bool) →
    List (String × Bool) × List (String × Bool)
  | _, [], c, n => (c, n)
  | st, line :: rest, c, n =>
    let l := pyLstrip line
    if isStatusHeader l then specStatusGo (headerUpdate st line) rest c n
    else if pyStartswith l "modified" then
      specStatusGo st rest (updateAssoc c (claimKeyAmended l) st) n
    else if pyStartswith l "new table" then
      specStatusGo st rest c (updateAssoc n (claimKeyAmended l) st)
    else specStatusGo st rest c n

/-- Every `modified`/`new table` line actually carries a `':'` (so the
source's `split(':')[1]` cannot raise). -/
def colonOk (output : List String) : Bool :=
  output.all fun line =>
    let l := pyLstrip line
    !(pyStartswith l "modified" || pyStartswith l "new table")
      || 2 ≤ (pySplitOnChar l ':').length

/-- Whether an action is a subprocess invocation. -/
def isRunAction : PyAction → Bool
  | .runDolt _ _ => true
  | _ => false

/-- Whether an action is the retry-wrapped connection check. -/
def isVerifyAction : PyAction → Bool
  | .verifyConnectionRetry _ _ => true
  | _ => false

theorem truthyL_map_tablesOf (tot : Option StrOrList) :
    truthyL (tot.map tablesOf) = Dolt.derivedTablesTruthy tot := by
  rcases tot with _ | t
  · rfl
  · cases t <;> rfl

theorem statusLoop_eq_spec (output : List String) :
    ∀ (st : Bool) (c n : List (String × Bool)), colonOk output = true →
      Dolt.statusLoop output st c n = .ok (specStatusGo st output c n) := by
  induction output with
  | nil => intro st c n _; rfl
  | cons line rest ih =>
    intro st c n hcol
    rw [colonOk, List.all_cons, Bool.and_eq_true] at hcol
    have hline := hcol.1
    have hrest : colonOk rest = true := hcol.2
    by_cases h1 : pyStartswith (pyLstrip line) "Changes to be committed" = true
    · simp [Dolt.statusLoop, specStatusGo, isStatusHeader, headerUpdate, h1, ih _ _ _ hrest]
    · by_cases h2 : pyStartswith (pyLstrip line) "Changes not staged for commit" = true
      · simp [Dolt.statusLoop, specStatusGo, isStatusHeader, headerUpdate, h1, h2,
          ih _ _ _ hrest]
      · by_cases h3 : pyStartswith (pyLstrip line) "Untracked files" = true
        · simp [Dolt.statusLoop, specStatusGo, isStatusHeader, headerUpdate, h1, h2, h3,
            ih _ _ _ hrest]
        · by_cases h4 : pyStartswith (pyLstrip line) "modified" = true
          · have hlen : 2 ≤ (pySplitOnChar (pyLstrip line) ':').length := by
              simp only [h4, Bool.true_or, Bool.not_true, Bool.false_or] at hline
              exact of_decide_eq_true hline
            have hlt : 1 < (pySplitOnChar (pyLstrip line) ':').length := by omega
            have hx := List.getElem?_eq_getElem hlt
            simp [Dolt.statusLoop, specStatusGo, isStatusHeader, claimKeyAmended, pyGet,
              h1, h2, h3, h4, hx, ih _ _ _ hrest]
          · by_cases h5 : pyStartswith (pyLstrip line) "new table" = true
            · have hlen : 2 ≤ (pySplitOnChar (pyLstrip line) ':').length := by
                simp only [h5, Bool.or_true, Bool.not_true, Bool.false_or] at hline
                exact of_decide_eq_true hline
              have hlt : 1 < (pySplitOnChar (pyLstrip line) ':').length := by omega
              have hx := List.getElem?_eq_getElem hlt
              simp [Dolt.statusLoop, specStatusGo, isStatusHeader, claimKeyAmended, pyGet,
                h1, h2, h3, h4, h5, hx, ih _ _ _ hrest]
            · simp [Dolt.statusLoop, specStatusGo, isStatusHeader, headerUpdate,
                h1, h2, h3, h4, h5, ih _ _ _ hrest]

/-- Claim C5, counterexample.  The claim keys entries by "the text after the
first `':'`", but the source takes `split(':')[1]`, the text *between* the
first and second colon: on the line `modified: x:y` the code stores the key
`x`, while the text after the first colon is `x:y`. -/
theorem C5_colon_key_counterexample :
    Dolt.parse_status ["modified: x:y"] = .ok ⟨false, [("x", false)], []⟩
    ∧ claimKeyAsStated (pyLstrip "modified: x:y") = "x:y"
    ∧ ¬("x", false) = (("x:y", false) : String × Bool) :=
  ⟨by decide, by decide, by decide⟩

/-- Claim C5, amended.  `status()` reports clean with empty maps exactly when
the joined output contains the substring `clean`; otherwise every line whose
left-stripped form starts with `modified`/`new table` is entered into the
modified/added map keyed by the left-stripped *second `':'`-separated field*
of the line, with its staged flag tracking the most recently seen section
header (`Changes to be committed` ⇒ staged, `Changes not staged for commit`
or `Untracked files` ⇒ unstaged, initially unstaged), and all other lines
are ignored — provided every such line carries a colon (otherwise the
source's `split(':')[1]` raises `IndexError`). -/
theorem C5_status_characterization (output : List String)
    (h : colonOk output = true) :
    Dolt.parse_status output =
      if strContains (joinNL output) "clean" = true then Except.ok ⟨true, [], []⟩
      else Except.ok ⟨false, (specStatusGo false output [] []).1,
        (specStatusGo false output [] []).2⟩ := by
  unfold Dolt.parse_status
  by_cases hc : strContains (joinNL output) "clean" = true
  · simp [hc]
  · simp [hc, statusLoop_eq_spec output false [] [] h, Except.map]

/-- Witness for `C5_status_characterization` on a concrete status output. -/
theorem C5_status_characterization_witness :
    Dolt.parse_status ["Changes to be committed:", "  modified: t1",
        "Changes not staged for commit:", "  modified: t2", "Untracked files:",
        "  new table: t3"] =
      .ok ⟨false, [("t1", true), ("t2", false)], [("t3", false)]⟩ := by
  have h := C5_status_characterization ["Changes to be committed:", "  modified: t1",
    "Changes not staged for commit:", "  modified: t2", "Untracked files:",
    "  new table: t3"] (by decide)
  rw [h]; decide

/-- Claim C1, counterexample.  `creds_ls` never returns parsed `DoltKeyPair`
objects: it iterates over the raw output *string* (so each `line` is one
character) and calls the nonexistent method `str.splity`, raising
`AttributeError` on any real output. -/
theorem C1_creds_ls_not_parsed :
    Dolt.creds_ls_parse "abc123pubkey keyid1" =
      .error (.attributeError "str object has no attribute splity") := by
  decide

/-- Claim C1, amended.  `log`, branch listing, table listing, remote listing
and `status` do parse the subprocess's line-oriented output into typed
objects (`DoltCommit`, `DoltBranch`, `DoltTable`, `DoltRemote`, `DoltStatus`)
and return them; but `creds_ls` can never produce a `DoltKeyPair` (it fails
on every non-empty output, and yields `[]` on empty output), and `diff` only
prints — it returns no diff object (unit). -/
theorem C1_parsers_amended :
    Dolt.parse_log ["commit abcdef", "Author: Jane <j@x.com>",
        "Date:   Tue Mar 03 10:00:00 +0000 2020", "", "    message", ""] =
      .ok [("abcdef", ⟨"abcdef", "Tue Mar 03 10:00:00 +0000 2020", "Jane <j@x.com>"⟩)]
    ∧ Dolt.parse_branches ["* master abc123", "  feature def456", ""] =
      .ok (some ⟨"master", "abc123"⟩, [⟨"master", "abc123"⟩, ⟨"feature", "def456"⟩])
    ∧ Dolt.parse_ls ["Tables in working set:", "  t1    aaa    5", ""] =
      .ok [⟨"t1", some "aaa", some "5", false⟩]
    ∧ Dolt.parse_remotes ["origin https://doltremoteapi.dolthub.com/u/repo", ""] =
      .ok [⟨"origin", "https://doltremoteapi.dolthub.com/u/repo"⟩]
    ∧ Dolt.parse_status ["Changes to be committed:", "  modified: players",
        "Untracked files:", "  new table: leagues"] =
      .ok ⟨false, [("players", true)], [("leagues", false)]⟩
    ∧ (∀ s : String, Dolt.creds_ls_parse s =
        match s.data with
        | [] => .ok []
        | c :: _ =>
          .error (if c = '*' then .indexError
            else .attributeError "str object has no attribute splity"))
    ∧ Dolt.diff_run (fun _ _ => ⟨"diff output text", "", 0⟩) "/repo" none none none
        false false false false none none = .ok () := by
  refine ⟨by decide, by decide, by decide, by decide, by decide, ?_, by decide⟩
  intro s
  unfold Dolt.creds_ls_parse
  cases s.data with
  | nil => rfl
  | cons c cs =>
    by_cases hc : c = '*'
    · simp [Dolt.credsGo, hc]
    · simp [Dolt.credsGo, hc]

/-- Claim C9.  `sql_server_stop` is total and idempotent on the server handle:
with no handle it is a no-op, otherwise it kills the process and clears the
handle; after any call the handle is `None` and a second call does nothing. -/
theorem C9_sql_server_stop_idempotent :
    ∀ st : DoltState,
      (Dolt.sql_server_stop st).1.server = none
      ∧ (st.server = none → Dolt.sql_server_stop st = (st, []))
      ∧ (∀ h : Nat, st.server = some h →
          Dolt.sql_server_stop st = (⟨none⟩, [.killServer h]))
      ∧ Dolt.sql_server_stop (Dolt.sql_server_stop st).1 =
          ((Dolt.sql_server_stop st).1, []) := by
  intro st
  obtain ⟨sv⟩ := st
  cases sv <;> simp [Dolt.sql_server_stop]

/-- Witness for `C9_sql_server_stop_idempotent` at a concrete handle. -/
theorem C9_sql_server_stop_idempotent_witness :
    Dolt.sql_server_stop ⟨some 7⟩ = (⟨none⟩, [.killServer 7]) :=
  (C9_sql_server_stop_idempotent ⟨some 7⟩).2.2.1 7 rfl

/-- Claim C4.  Setting mutually exclusive mode flags together — `reset` with
`hard` and `soft`, `diff` with more than one of data/schema/summary, `config`
without exactly one of add/list/get/unset — yields the assertion failure
before any command line is produced, so no subprocess runs and nothing is
mutated on that path. -/
theorem C4_mutually_exclusive_flags :
    (∀ (tot : StrOrList) (hard soft : Bool), hard = true → soft = true →
      Dolt.reset_cmd tot hard soft =
        .error (.assertionError "Cannot reset hard and soft"))
    ∧ (∀ commit oc tot data schema summary sql w lim,
        1 < ([data, schema, summary].filter id).length →
        Dolt.diff_cmd commit oc tot data schema summary sql w lim =
          .error (.assertionError "At most one of delete, copy, move can be set to True"))
    ∧ (∀ name value addFlag listFlag getFlag unsetFlag,
        ([addFlag, listFlag, getFlag, unsetFlag].filter id).length ≠ 1 →
        Dolt.config_cmd name value addFlag listFlag getFlag unsetFlag =
          .error (.assertionError "Exactly one of add, list, get, unset must be True")) := by
  refine ⟨?_, ?_, ?_⟩
  · intro tot hard soft hh hs
    subst hh; subst hs; rfl
  · intro commit oc tot data schema summary sql w lim h
    simp [Dolt.diff_cmd, h]
  · intro name value addFlag listFlag getFlag unsetFlag h
    simp [Dolt.config_cmd, h]

/-- Witness for `C4_mutually_exclusive_flags` at concrete flag combinations. -/
theorem C4_mutually_exclusive_flags_witness :
    Dolt.reset_cmd (.str "t") true true =
      .error (.assertionError "Cannot reset hard and soft")
    ∧ Dolt.diff_cmd none none none true true false false none none =
      .error (.assertionError "At most one of delete, copy, move can be set to True")
    ∧ Dolt.config_cmd none none false false false false =
      .error (.assertionError "Exactly one of add, list, get, unset must be True") :=
  ⟨C4_mutually_exclusive_flags.1 (.str "t") true true rfl rfl,
   C4_mutually_exclusive_flags.2.1 none none none true true false false none none
     (by decide),
   C4_mutually_exclusive_flags.2.2 none none false false false false (by decide)⟩

/-- Claim C3, with the binary behavior modelled from the spec.  With nothing staged and
`allow_empty` left `False`, the modelled binary exits nonzero, `_execute`
surfaces this as a raised `DoltException`, no new commit is created and the
branch ref is unmoved; and the `--allow-empty` flag appears on the command
line the binary parses iff `allow_empty=True`. -/
theorem C3_commit_nothing_staged :
    ∀ (st : RepoState) (m : String), st.staged = st.tipRoot →
      (commitRun st m false).1 =
        .error (.doltException ("dolt" :: Dolt.commit_cmd m false none) ""
          "no changes added to commit" 1)
      ∧ (commitRun st m false).2 = st
      ∧ (∀ ae : Bool,
          ("--allow-empty" ∈ flagsOf (Dolt.commit_cmd m ae none)) ↔ ae = true) := by
  intro st m h
  have hflags : flagsOf (Dolt.commit_cmd m false none) = ["commit"] := rfl
  have hflagsT : flagsOf (Dolt.commit_cmd m true none) = ["commit", "--allow-empty"] := rfl
  have hd : decide (("--allow-empty" : String) ∈ ["commit"]) = false := rfl
  refine ⟨?_, ?_, ?_⟩
  · simp [commitRun, hflags, hd, doltBinaryCommit, h]
  · simp [commitRun, hflags, hd, doltBinaryCommit, h]
  · intro ae
    cases ae
    · rw [hflags]
      constructor
      · intro hmem; exact absurd hmem (by decide)
      · intro hfalse; exact absurd hfalse (by decide)
    · rw [hflagsT]
      simp

/-- Witness for `C3_commit_nothing_staged` on a concrete repository state. -/
theorem C3_commit_nothing_staged_witness :
    (commitRun ⟨3, 4, 9, 9, 11⟩ "x" false).1 =
      .error (.doltException ["dolt", "commit", "-m", "x"] ""
        "no changes added to commit" 1)
    ∧ (commitRun ⟨3, 4, 9, 9, 11⟩ "x" false).2 = ⟨3, 4, 9, 9, 11⟩ := by
  have h := C3_commit_nothing_staged ⟨3, 4, 9, 9, 11⟩ "x" rfl
  exact ⟨h.1, h.2.1⟩

/-- Claim C6.  `_execute` prepends `dolt` and forwards the caller's arguments
unchanged and in order to the subprocess run in the repository directory; it
returns the decoded stdout iff the exit code is 0, and raises `DoltException`
carrying the full argument vector, stdout, stderr and exit code iff the exit
code is nonzero; `Dolt.execute` returns that output split on newlines, and
(without a server restart) its only side effect is the single subprocess
invocation. -/
theorem C6_execute_contract :
    ∀ (run : List String → String → ProcResult) (args : List String) (cwd : String),
      (∀ s, dolt_execute run args cwd = .ok s ↔
        ((run ("dolt" :: args) cwd).exitcode = 0 ∧ s = (run ("dolt" :: args) cwd).stdout))
      ∧ (∀ e, dolt_execute run args cwd = .error e ↔
        (¬(run ("dolt" :: args) cwd).exitcode = 0 ∧
          e = .doltException ("dolt" :: args) (run ("dolt" :: args) cwd).stdout
            (run ("dolt" :: args) cwd).stderr (run ("dolt" :: args) cwd).exitcode))
      ∧ (∀ newPid st restart,
          (Dolt.execute run newPid st args cwd restart).1 =
            (dolt_execute run args cwd).map fun out => pySplitOnChar out '\n')
      ∧ (∀ newPid st,
          (Dolt.execute run newPid st args cwd false).2.2 =
            [.runDolt ("dolt" :: args) cwd]) := by
  intro run args cwd
  refine ⟨?_, ?_, ?_, ?_⟩
  · intro s
    by_cases hz : (run ("dolt" :: args) cwd).exitcode = 0 <;>
      simp [dolt_execute, hz, eq_comm]
  · intro e
    by_cases hz : (run ("dolt" :: args) cwd).exitcode = 0 <;>
      simp [dolt_execute, hz, eq_comm]
  · intro newPid st restart
    obtain ⟨sv⟩ := st
    by_cases hz : (run ("dolt" :: args) cwd).exitcode = 0 <;>
      cases restart <;> cases sv <;>
      simp [Dolt.execute, dolt_execute, Dolt.sql_server_stop, hz, Except.map]
  · intro newPid st
    by_cases hz : (run ("dolt" :: args) cwd).exitcode = 0 <;>
      simp [Dolt.execute, hz]

theorem checkout_cmd_eq (branch : Option String) (tot : Option StrOrList)
    (cb : Bool) (sp : Option String) :
    Dolt.checkout_cmd branch tot cb sp =
      if truthyS branch = true then
        if Dolt.totTruthy tot = true then
          .error (.assertionError "No table_or_tables ")
        else if truthyL (tot.map tablesOf) = true then
          .error (.assertionError "Passing a branch not compatible with tables")
        else .ok (["checkout"]
          ++ (if cb then "-b" :: (if truthyS sp = true then [optS sp] else []) else [])
          ++ [optS branch])
      else if truthyL (tot.map tablesOf) = true then
        .ok ["checkout", String.intercalate " " ((tot.map tablesOf).getD [])]
      else .ok ["checkout"] := by
  unfold Dolt.checkout_cmd
  by_cases hb : truthyS branch = true <;> by_cases ht : Dolt.totTruthy tot = true <;>
    by_cases hl : truthyL (tot.map tablesOf) = true <;> simp [hb, ht, hl]

theorem checkout_cmd_ok_head (branch : Option String) (tot : Option StrOrList)
    (cb : Bool) (sp : Option String) (a : List String)
    (h : Dolt.checkout_cmd branch tot cb sp = .ok a) :
    ∃ rest, a = "checkout" :: rest := by
  rw [checkout_cmd_eq] at h
  by_cases hb : truthyS branch = true <;> by_cases ht : Dolt.totTruthy tot = true <;>
    by_cases hl : truthyL (tot.map tablesOf) = true <;>
    simp [hb, ht, hl] at h <;> exact ⟨_, h.symm⟩

theorem execute_runDolt_mem (run : List String → String → ProcResult) (newPid : Nat)
    (st : DoltState) (args : List String) (cwd : String) (restart : Bool)
    (argv : List String) (c : String)
    (h : PyAction.runDolt argv c ∈ (Dolt.execute run newPid st args cwd restart).2.2) :
    argv = "dolt" :: args ∧ c = cwd := by
  obtain ⟨sv⟩ := st
  cases sv <;> cases restart <;>
    by_cases hz : (run ("dolt" :: args) cwd).exitcode = 0 <;>
    simp [Dolt.execute, Dolt.sql_server_stop, hz] at h <;>
    exact h

/-- Claim C2.  `checkout()` never performs a dirty-working-set check: it never
issues a `status` command (every subprocess it spawns is a `dolt checkout`
invocation) and its result is a function of its arguments alone; it raises
exactly when a truthy `branch` is combined with a nonempty derived table
list (the incompatible-argument assertions), and those are its only raises —
any other failure comes from the subprocess itself. -/
theorem C2_checkout_no_dirty_check :
    ∀ (branch : Option String) (tot : Option StrOrList) (cb : Bool) (sp : Option String),
      ((∃ e, Dolt.checkout_cmd branch tot cb sp = .error e) ↔
        (truthyS branch = true ∧ Dolt.derivedTablesTruthy tot = true))
      ∧ (∀ e, Dolt.checkout_cmd branch tot cb sp = .error e →
          ∃ msg, e = .assertionError msg)
      ∧ (∀ a, Dolt.checkout_cmd branch tot cb sp = .ok a →
          ∃ rest, a = "checkout" :: rest)
      ∧ (∀ run newPid (st : DoltState) cwd argv c,
          PyAction.runDolt argv c ∈
            (Dolt.checkout_run run newPid st cwd branch tot cb sp).2.2 →
          ∃ rest, argv = "dolt" :: "checkout" :: rest) := by
  intro branch tot cb sp
  have htd : Dolt.totTruthy tot = true → truthyL (tot.map tablesOf) = true := by
    cases tot with
    | none => intro hh; exact hh
    | some t =>
      cases t with
      | str s => intro _; rfl
      | list l => intro hh; exact hh
  have hder : truthyL (tot.map tablesOf) = Dolt.derivedTablesTruthy tot :=
    truthyL_map_tablesOf tot
  refine ⟨?_, ?_, ?_, ?_⟩
  · rw [checkout_cmd_eq, ← hder]
    by_cases hb : truthyS branch = true <;> by_cases ht : Dolt.totTruthy tot = true <;>
      by_cases hl : truthyL (tot.map tablesOf) = true <;>
      simp [hb, ht, hl, htd]
    exact hl (htd ht)
  · intro e he
    rw [checkout_cmd_eq] at he
    by_cases hb : truthyS branch = true <;> by_cases ht : Dolt.totTruthy tot = true <;>
      by_cases hl : truthyL (tot.map tablesOf) = true <;>
      simp [hb, ht, hl] at he <;> exact ⟨_, he.symm⟩
  · intro a h
    exact checkout_cmd_ok_head branch tot cb sp a h
  · intro run newPid st cwd argv c hmem
    unfold Dolt.checkout_run at hmem
    cases hc : Dolt.checkout_cmd branch tot cb sp with
    | error e => rw [hc] at hmem; simp at hmem
    | ok a =>
      rw [hc] at hmem
      obtain ⟨hargv, -⟩ := execute_runDolt_mem run newPid st a cwd true argv c hmem
      obtain ⟨rest, hrest⟩ := checkout_cmd_ok_head branch tot cb sp a hc
      exact ⟨rest, by rw [hargv, hrest]⟩

/-- Witness for `C2_checkout_no_dirty_check`: a concrete incompatible call
raises the assertion, and a concrete valid call issues only `dolt checkout`. -/
theorem C2_checkout_no_dirty_check_witness :
    (∃ msg, (PyError.assertionError "No table_or_tables ") = .assertionError msg)
    ∧ (∃ rest, ["checkout", "feature"] = "checkout" :: rest)
    ∧ (∃ rest, ["dolt", "checkout", "feature"] = "dolt" :: "checkout" :: rest) := by
  have h := C2_checkout_no_dirty_check (some "feature") none false none
  refine ⟨(C2_checkout_no_dirty_check (some "b") (some (.str "t")) false none).2.1 _ (by decide),
    h.2.2.1 ["checkout", "feature"] (by decide), h.2.2.2
      (fun _ _ => ⟨"", "", 0⟩) 0 ⟨none⟩ "/repo" ["dolt", "checkout", "feature"] "/repo" ?_⟩
  decide

/-- Claim C7.  The only automatic retry is the post-restart connection check:
`execute` always spawns the command subprocess exactly once; the retry-wrapped
`verify_connection` (tries=10, delay=2s) appears in the effect trace iff
`restart_server=True`, a server handle exists and the command succeeded —
after stopping the server, running the command and relaunching the server —
and with `restart_server=False` or no server handle the trace is the single
subprocess run with the state untouched, so nothing is verified or retried. -/
theorem C7_retry_only_on_restart :
    ∀ (run : List String → String → ProcResult) (newPid : Nat) (st : DoltState)
      (args : List String) (cwd : String) (restart : Bool),
      (((Dolt.execute run newPid st args cwd restart).2.2.filter isRunAction).length = 1)
      ∧ ((Dolt.execute run newPid st args cwd restart).2.2.any isVerifyAction =
          (restart && st.server.isSome
            && decide ((run ("dolt" :: args) cwd).exitcode = 0)))
      ∧ (∀ t d, PyAction.verifyConnectionRetry t d ∈
            (Dolt.execute run newPid st args cwd restart).2.2 → t = 10 ∧ d = 2)
      ∧ (restart = false ∨ st.server = none →
          (Dolt.execute run newPid st args cwd restart).2.2 =
            [.runDolt ("dolt" :: args) cwd]
          ∧ (Dolt.execute run newPid st args cwd restart).2.1 = st)
      ∧ (∀ h : Nat, restart = true → st.server = some h →
          (run ("dolt" :: args) cwd).exitcode = 0 →
          (Dolt.execute run newPid st args cwd restart).2.2 =
            [.killServer h, .runDolt ("dolt" :: args) cwd,
             .startServer serverDefaultArgs, .verifyConnectionRetry 10 2]) := by
  intro run newPid st args cwd restart
  obtain ⟨sv⟩ := st
  cases sv <;> cases restart <;>
    by_cases hz : (run ("dolt" :: args) cwd).exitcode = 0 <;>
    simp [Dolt.execute, Dolt.sql_server_stop, isRunAction, isVerifyAction, hz]

/-- Witness for `C7_retry_only_on_restart`: a concrete restart with a live
server handle and a successful command produces exactly the
stop/run/start/retry-verify trace. -/
theorem C7_retry_only_on_restart_witness :
    (Dolt.execute (fun _ _ => ⟨"", "", 0⟩) 9 ⟨some 4⟩ ["status"] "/repo" true).2.2 =
      [.killServer 4, .runDolt ["dolt", "status"] "/repo",
       .startServer serverDefaultArgs, .verifyConnectionRetry 10 2] :=
  (C7_retry_only_on_restart (fun _ _ => ⟨"", "", 0⟩) 9 ⟨some 4⟩ ["status"] "/repo"
    true).2.2.2.2 4 rfl rfl rfl

theorem branchFinal_ok_mem (bn sp : Option String) (args : List String)
    (steps res : List BranchCmd) (h : Dolt.branchFinal bn sp args steps = .ok res)
    (a : List String) (hmem : BranchCmd.deleteCmd a ∈ res) :
    BranchCmd.deleteCmd a ∈ steps := by
  simp only [Dolt.branchFinal] at h
  by_cases hb : truthyS bn = true
  · rw [if_pos hb] at h
    have hres : (steps ++ [BranchCmd.finalCmd (args ++ extendStr (optS bn)
        ++ (if truthyS sp = true then [optS sp] else []))]) ++ [BranchCmd.listing] = res :=
      Except.ok.inj h
    rw [← hres] at hmem
    rcases List.mem_append.mp hmem with hm | hm
    · rcases List.mem_append.mp hm with hm2 | hm2
      · exact hm2
      · simp at hm2
    · simp at hm
  · rw [if_neg hb] at h
    have hres : steps ++ [BranchCmd.listing] = res := Except.ok.inj h
    rw [← hres] at hmem
    rcases List.mem_append.mp hmem with hm | hm
    · exact hm
    · simp at hm

theorem branch_steps_no_delete (bn sp nb : Option String) (force delete copy move : Bool)
    (steps : List BranchCmd)
    (h : Dolt.branch_steps bn sp nb force delete copy move = .ok steps) :
    ∀ a, BranchCmd.deleteCmd a ∉ steps := by
  intro a hmem
  cases hbn : truthyS bn <;> cases hnb : truthyS nb <;> cases hsp : truthyS sp <;>
    cases force <;> cases delete <;> cases copy <;> cases move
  all_goals try simp [Dolt.branch_steps, Dolt.branchFinal, hbn, hnb, hsp] at h
  all_goals try subst h
  all_goals simp_all

/-- Claim C8, counterexample.  The exact `['branch', '--delete', name]` command
*is* reachable: passing `branch_name='--delete'` with a start point takes the
early-return creation path and hands `dolt branch --delete x` to the
subprocess — even with `delete=True` — so the claim's "unreachable for all
inputs" is false as stated (the *delete code block* is what is unreachable). -/
theorem C8_delete_command_reachable :
    Dolt.branch_cmds (some "--delete") (some "x") none false true false false =
      .ok [["branch", "--delete", "x"], ["branch", "--list", "--verbose"]] := by
  decide

/-- Claim C8, amended.  The delete *code block* of `branch()`
(`args.extend(['--delete', branch_name]); self.execute(args)`) is unreachable:
no successful call ever issues a command from it; with `delete=True` and a
truthy `branch_name` the early-return creation test
`branch_name and not(delete and copy and move)` is true and only the creation
command (built from the caller's `branch_name`/`start_point` strings) plus the
branch listing are issued, and with `delete=True` and no truthy `branch_name`
the `assert branch_name` guard raises `AssertionError`. -/
theorem C8_branch_delete_block_unreachable :
    (∀ (bn sp nb : Option String) (force delete copy move : Bool)
        (steps : List BranchCmd),
        Dolt.branch_steps bn sp nb force delete copy move = .ok steps →
        ∀ a, BranchCmd.deleteCmd a ∉ steps)
    ∧ (∀ (bn sp nb : Option String) (force : Bool), truthyS bn = true →
        Dolt.branch_steps bn sp nb force true false false =
          .ok [.creation (["branch"] ++ (if force then ["--force"] else [])
            ++ [optS bn] ++ (if truthyS sp = true then [optS sp] else [])), .listing])
    ∧ (∀ (bn sp nb : Option String) (force : Bool), truthyS bn = false →
        Dolt.branch_steps bn sp nb force true false false =
          .error (.assertionError "must provide branch_name when deleting")) := by
  refine ⟨?_, ?_, ?_⟩
  · intro bn sp nb force delete copy move steps h
    exact branch_steps_no_delete bn sp nb force delete copy move steps h
  · intro bn sp nb force hbn
    simp [Dolt.branch_steps, hbn]
  · intro bn sp nb force hbn
    simp [Dolt.branch_steps, hbn]

/-- Witness for `C8_branch_delete_block_unreachable` at concrete inputs. -/
theorem C8_branch_delete_block_unreachable_witness :
    Dolt.branch_steps (some "b") none none false true false false =
      .ok [.creation ["branch", "b"], .listing]
    ∧ Dolt.branch_steps none none none false true false false =
      .error (.assertionError "must provide branch_name when deleting")
    ∧ BranchCmd.deleteCmd ["branch", "--delete", "b"] ∉
        ([.creation ["branch", "b"], .listing] : List BranchCmd) := by
  refine ⟨?_, C8_branch_delete_block_unreachable.2.2 none none none false rfl, ?_⟩
  · exact C8_branch_delete_block_unreachable.2.1 (some "b") none none false rfl
  · exact C8_branch_delete_block_unreachable.1 (some "b") none none false true false
      false [.creation ["branch", "b"], .listing] (by decide)
      ["branch", "--delete", "b"]

/-- Claim C10, counterexample.  For `checkout` with a truthy `branch`, passing
the empty string is *not* equivalent to passing `['']`: the string `''` is
falsy, so the call passes the no-tables assertion and then fails the
no-branch assertion, while the list `['']` is truthy and fails the no-tables
assertion — two different assertion failures, so the two calls do not behave
the same. -/
theorem C10_checkout_empty_string_inequiv :
    Dolt.checkout_cmd (some "b") (some (.str "")) false none =
      .error (.assertionError "Passing a branch not compatible with tables")
    ∧ Dolt.checkout_cmd (some "b") (some (.list [""])) false none =
      .error (.assertionError "No table_or_tables ")
    ∧ Dolt.checkout_cmd (some "b") (some (.str "")) false none ≠
      Dolt.checkout_cmd (some "b") (some (.list [""])) false none :=
  ⟨by decide, by decide, by decide⟩

/-- Claim C10, amended.  Passing a single string `s` as `table_or_tables` is
equivalent to passing `[s]` — the same command line is built, hence the same
subprocess result is returned — for `add`, `reset`, `table_rm`, `schema_show`
and `diff` at every argument combination, and for `checkout` except in the
single case of a truthy `branch` together with `s = ''` (where the two calls
fail different assertions). -/
theorem C10_string_list_equivalence :
    ∀ s : String,
      Dolt.add_cmd (.str s) = Dolt.add_cmd (.list [s])
      ∧ (∀ hard soft, Dolt.reset_cmd (.str s) hard soft =
          Dolt.reset_cmd (.list [s]) hard soft)
      ∧ Dolt.table_rm_cmd (.str s) = Dolt.table_rm_cmd (.list [s])
      ∧ (∀ commit, Dolt.schema_show_cmd (.str s) commit =
          Dolt.schema_show_cmd (.list [s]) commit)
      ∧ (∀ c oc d sch sm sq w lim,
          Dolt.diff_cmd c oc (some (.str s)) d sch sm sq w lim =
            Dolt.diff_cmd c oc (some (.list [s])) d sch sm sq w lim)
      ∧ (∀ branch cb sp, ¬(truthyS branch = true ∧ s = "") →
          Dolt.checkout_cmd branch (some (.str s)) cb sp =
            Dolt.checkout_cmd branch (some (.list [s])) cb sp) := by
  intro s
  refine ⟨rfl, fun hard soft => rfl, rfl, fun commit => rfl,
    fun c oc d sch sm sq w lim => rfl, ?_⟩
  intro branch cb sp hne
  by_cases hb : truthyS branch = true
  · have hs : ¬s = "" := fun hs => hne ⟨hb, hs⟩
    have ht1 : Dolt.totTruthy (some (.str s)) = true := by
      simp [Dolt.totTruthy, hs]
    have ht2 : Dolt.totTruthy (some (.list [s])) = true := rfl
    rw [checkout_cmd_eq, checkout_cmd_eq, ht1, ht2]
    simp [hb]
  · simp [Dolt.checkout_cmd, hb, tablesOf]

/-- Witness for `C10_string_list_equivalence` at a concrete table name. -/
theorem C10_string_list_equivalence_witness :
    Dolt.checkout_cmd (some "b") (some (.str "t")) false none =
      Dolt.checkout_cmd (some "b") (some (.list ["t"])) false none :=
  (C10_string_list_equivalence "t").2.2.2.2.2 (some "b") false none (by decide)

/-- Witness for `C6_execute_contract` at a concrete oracle and command. -/
theorem C6_execute_contract_witness :
    dolt_execute (fun _ _ => ⟨"out", "", 0⟩) ["log"] "/r" = .ok "out" :=
  ((C6_execute_contract (fun _ _ => ⟨"out", "", 0⟩) ["log"] "/r").1 "out").mpr
    ⟨rfl, rfl⟩
